import Mathlib

set_option maxRecDepth 8192

/-!
Verification of the Glasir session-acquisition core.

Shallow embedding of the session validator and fast-path re-authenticator
(`glasir_http.py`), the interactive authenticator's state machine and retry
loop (`glasir_browser.py`), and the orchestrator (`glasir_main.py`).

Conventions of the embedding:
* Timestamps and cookie expiries are `Int` (epoch seconds); the Python code
  compares floats, and only order matters to the logic.
* A Python dict that may lack keys is modelled with `Option`-valued fields;
  reading a missing key (a `KeyError`) is an `Except.error`.
* Network effects are passed in as explicit outcome values: a probe or GET
  either yields a response or a transport exception.
* `None`-or-falsy session data is `Option.none` (an empty dict is falsy in
  Python and is caught by the same `if not session_data` check).
-/

/-- Anchored prefix test: `re.match` with a `^`-anchored literal pattern,
and also `str.startswith`. -/
def strStarts (hay pre : String) : Bool :=
  pre.data.isPrefixOf hay.data

/-- Contiguous-sublist test on character lists. -/
def charsInfix : List Char → List Char → Bool
  | needle, [] => needle.isEmpty
  | needle, a :: t => needle.isPrefixOf (a :: t) || charsInfix needle t

/-- Python substring test `needle in hay` for strings. -/
def strContains (hay needle : String) : Bool :=
  charsInfix needle.data hay.data

/-- The expected final URL, `https://tg.glasir.fo/132n/` (the default
`final_url` of both `GlasirHTTP` and `GlasirBrowser`; the orchestrator
constructs both with this default). -/
def finalUrl : String := "https://tg.glasir.fo/132n/"

/-- A raw cookie entry of a stored session record (`session_data["cookies"]`
in `glasir_http.py`): a JSON object whose keys may be absent.  Only `name`
and `expires` are read outside the validator's `try` block. -/
structure RawCookie where
  nameKey : Option String
  expiresKey : Option Int
  deriving Repr, DecidableEq

/-- A stored session record (the truthy-dict case of `session_data`).
`cookies` defaults to `[]` and `last_access_success` to `0` when the key is
absent, exactly as `session_data.get(...)` does. -/
structure SessionRecord where
  cookies : List RawCookie
  last_access_success : Int
  deriving Repr, DecidableEq

/-- Outcome of the single network probe (`session.get(self.final_url,
allow_redirects=False)` in `check_session_validity`), or of anything else
inside that `try` block: either a response (status, `Location` header) or an
exception message. -/
inductive ProbeOutcome where
  | resp (status : Nat) (location : String)
  | exc (msg : String)
  deriving Repr, DecidableEq

namespace GlasirHTTP

/-- Result of the cookie scan in `check_session_validity` (lines 100-112 of
`glasir_http.py`): the loop over `session_data.get("cookies", [])` looking
for `ESTSAUTHPERSISTENT`, with its expiry test and `break`. -/
inductive ScanResult where
  | expired
  | foundOk
  | notFound
  deriving Repr, DecidableEq

/-- The cookie scan itself.  `cookie["name"]` and `cookie["expires"]` are
plain indexing, so a missing key raises a `KeyError` past the function's
boundary (this part of the code is outside the `try`). -/
def cookieScan : List RawCookie → Int → Except String ScanResult
  | [], _ => .ok .notFound
  | c :: rest, now =>
    match c.nameKey with
    | none => .error "KeyError: name"
    | some n =>
      if n = "ESTSAUTHPERSISTENT" then
        match c.expiresKey with
        | none => .error "KeyError: expires"
        | some e =>
          if e ≠ -1 ∧ e < now then .ok .expired else .ok .foundOk
      else cookieScan rest now

/-- The branch on the probe's outcome inside `check_session_validity`s
`try` block (lines 139-155): 200, 302 with/without `/login` in the
redirect target, other statuses, and the `except` clause. -/
def probeCheck : ProbeOutcome → Bool × String
  | .exc m => (false, "Error checking session: " ++ m)
  | .resp status location =>
    if status = 200 then (true, "Session is valid")
    else if status = 302 then
      if strContains location "/login" then
        (false, "Session redirected to login page")
      else
        (false, "Unexpected redirect to: " ++ location)
    else (false, "Unexpected status code: " ++ toString status)

/-- `GlasirHTTP.check_session_validity` (lines 86-155 of `glasir_http.py`).
Returns the `(is_valid, reason)` pair together with the number of network
probes performed (0 or 1); raising propagates as `Except.error`. -/
def check_session_validity (session_data : Option SessionRecord) (now : Int)
    (probe : ProbeOutcome) : Except String ((Bool × String) × Nat) :=
  match session_data with
  | none => .ok ((false, "No session data found"), 0)
  | some r =>
    match cookieScan r.cookies now with
    | .error e => .error e
    | .ok .expired => .ok ((false, "Authentication cookie expired"), 0)
    | .ok .notFound => .ok ((false, "Authentication cookie not found"), 0)
    | .ok .foundOk =>
      if r.last_access_success > 0 ∧ now - r.last_access_success < 3600 then
        .ok ((true, "Recent successful access"), 0)
      else
        .ok (probeCheck probe, 1)

/-- A response to the fast-path GET (`session.get(self.final_url,
allow_redirects=True)` in `GlasirHTTP.login`): status code, final resolved
URL, and the serialisable cookie jar and headers the code extracts on
success. -/
structure HttpResponse where
  status : Nat
  url : String
  jar : List (String × String)
  headers : List (String × String)
  deriving Repr, DecidableEq

/-- `GlasirHTTP.login` (lines 157-227 of `glasir_http.py`).  The whole body
after the `if not session_data` guard sits in a `try ... except` that
returns `False`, so the embedding is total: a transport exception is an
input, not an escaping error.  Success returns the `(cookies_list,
headers_dict)` pair, failure is `none` (Python `False`). -/
def login (session_data : Option SessionRecord)
    (outcome : Except String HttpResponse) :
    Option (List (String × String) × List (String × String)) :=
  match session_data with
  | none => none
  | some _ =>
    match outcome with
    | .error _ => none
    | .ok resp =>
      if resp.status = 200 ∧ strContains resp.url finalUrl then
        some (resp.jar, resp.headers)
      else none

end GlasirHTTP

namespace GlasirBrowser

/-- The ordered state table `LOGIN_STATES` of `glasir_browser.py` (lines
24-31).  Python dicts iterate in insertion order, and `re.match` anchors at
the start of the string, so each regex is an anchored-pattern test:
* `INITIAL`: `^https://tg\.glasir\.fo/?$`
* `LOGIN_PAGE`: `^https://tg\.glasir\.fo/login`
* `MICROSOFT_LOGIN`: `^https://login\.microsoftonline\.com/`
* `ADFS_LOGIN`: `^https://adfs\.glasir\.fo/adfs/ls/`
* `RETURN_PAGE`: `^https://tg\.glasir\.fo/auth/openid/return`
* `FINAL_PAGE`: `^https://tg\.glasir\.fo/132n/` -/
def LOGIN_STATES : List (String × (String → Bool)) :=
  [ ("INITIAL", fun u => u == "https://tg.glasir.fo" || u == "https://tg.glasir.fo/"),
    ("LOGIN_PAGE", fun u => strStarts u "https://tg.glasir.fo/login"),
    ("MICROSOFT_LOGIN", fun u => strStarts u "https://login.microsoftonline.com/"),
    ("ADFS_LOGIN", fun u => strStarts u "https://adfs.glasir.fo/adfs/ls/"),
    ("RETURN_PAGE", fun u => strStarts u "https://tg.glasir.fo/auth/openid/return"),
    ("FINAL_PAGE", fun u => strStarts u "https://tg.glasir.fo/132n/") ]

/-- Out-of-range default used to state first-match-wins without dependent
indices; never an element of `LOGIN_STATES`. -/
def defaultEntry : String × (String → Bool) := ("", fun _ => false)

/-- `GlasirBrowser.determine_state` (lines 112-118 of `glasir_browser.py`):
first matching entry of `LOGIN_STATES` wins, otherwise `"UNKNOWN"`. -/
def determine_state (url : String) : String :=
  match LOGIN_STATES.find? (fun p => p.2 url) with
  | some p => p.1
  | none => "UNKNOWN"

/-- `max_state_transitions = 30` (line 352 of `glasir_browser.py`). -/
def MAX_STATE_TRANSITIONS : Nat := 30

/-- `max_same_state = 5` (line 355 of `glasir_browser.py`). -/
def MAX_SAME_STATE : Nat := 5

/-- `MAX_RETRIES = 3` (line 60 of `glasir_browser.py`). -/
def MAX_RETRIES : Nat := 3

/-- The driving loop's success test (line 363 of `glasir_browser.py`):
`current_state == "FINAL_PAGE" or self.final_url in page.url`. -/
def successCond (u : String) : Bool :=
  determine_state u == "FINAL_PAGE" || strContains u finalUrl

/-- How the state-machine driving loop ends: final page reached, reload
recovery raised, or the 30-transition budget ran out. -/
inductive LoopExit where
  | success
  | reloadFail
  | budget
  deriving Repr, DecidableEq

/-- Outcome of one iteration of the driving loop: either the loop halts
without completing the iteration (`break`), or it proceeds to the next
iteration carrying the updated `last_state` and `same_state_count`;
`reloaded` records whether a page-reload recovery ran this iteration. -/
inductive StepOut where
  | halt (e : LoopExit)
  | next (last : Option String) (cnt : Nat) (reloaded : Bool)
  deriving Repr, DecidableEq

/-- One iteration of the driving loop (lines 358-398 of
`glasir_browser.py`): compute the state from the observed URL `u`; break
successfully on the final page; on a repeated state bump
`same_state_count`, and at the threshold attempt one reload whose outcome
is `reloadOk` (a failed reload breaks the loop); any state change resets
the counter.  `handle_state_actions` only touches the page, so it has no
footprint in the loop state. -/
def loopStep (u : String) (last : Option String) (cnt : Nat)
    (reloadOk : Bool) : StepOut :=
  if successCond u then .halt .success
  else if some (determine_state u) = last then
    if MAX_SAME_STATE ≤ cnt + 1 then
      if reloadOk then .next (some (determine_state u)) 0 true
      else .halt .reloadFail
    else .next (some (determine_state u)) (cnt + 1) false
  else .next (some (determine_state u)) 0 false

/-- The driving loop, with `fuel = max_state_transitions -
current_transitions` remaining iterations; `i` is the iteration index
(equal to `current_transitions`).  `urls i` is `page.url` as observed at
iteration `i`, and `reloadOk i` tells whether a reload attempted at
iteration `i` would succeed.  Returns the exit reason and the number of
completed iterations at exit. -/
def loopAux (urls : Nat → String) (reloadOk : Nat → Bool) :
    Nat → Nat → Option String → Nat → LoopExit × Nat
  | 0, i, _, _ => (.budget, i)
  | fuel + 1, i, last, cnt =>
    match loopStep (urls i) last cnt (reloadOk i) with
    | .halt e => (e, i)
    | .next last2 cnt2 _ => loopAux urls reloadOk fuel (i + 1) last2 cnt2

/-- The full driving loop of one login attempt: starts with
`current_transitions = 0`, `last_state = None`, `same_state_count = 0`. -/
def loginLoop (urls : Nat → String) (reloadOk : Nat → Bool) : LoopExit × Nat :=
  loopAux urls reloadOk MAX_STATE_TRANSITIONS 0 none 0

/-- The environment one login attempt runs against: the URLs the page shows
at each loop iteration, the reload outcomes, the URL read at the post-loop
success check (line 404), whether the attempt raises an exception that the
per-attempt `try` catches, and the session data harvested on success. -/
structure AttemptEnv where
  urls : Nat → String
  reloadOk : Nat → Bool
  postUrl : String
  exc : Bool
  collected : SessionRecord

/-- Whether one login attempt succeeds: an exception routes to the retry
path; otherwise `success = self.final_url in page.url or "/132n/" in
page.url` after the loop (line 404 of `glasir_browser.py`). -/
def attemptRun (e : AttemptEnv) : Bool :=
  !e.exc && (strContains e.postUrl finalUrl || strContains e.postUrl "/132n/")

/-- The credential dict; `credentials.get("email", "")` defaults missing
keys to the empty string, which the guard then rejects. -/
structure Credentials where
  email : String
  password : String
  deriving Repr, DecidableEq

/-- The retry loop of `GlasirBrowser.login` (lines 288-478): `while
retry_count <= max_retries`, one full attempt per iteration, returning
`(True, session_data)` at the first success and `(False, None)` once
`retry_count` passes `max_retries`.  `fuel` is `MAX_RETRIES + 1 -
retry_count`, so the guard base case is unreachable; the second component
counts the attempts performed. -/
def retryAux (att : Nat → Bool) (collect : Nat → SessionRecord) :
    Nat → Nat → (Bool × Option SessionRecord) × Nat
  | 0, rc => ((false, none), rc)
  | fuel + 1, rc =>
    if att rc then ((true, some (collect rc)), rc + 1)
    else if rc + 1 ≤ MAX_RETRIES then retryAux att collect fuel (rc + 1)
    else ((false, none), rc + 1)

/-- `GlasirBrowser.login` (lines 251-478 of `glasir_browser.py`): guard on
missing/empty credentials, then the bounded retry loop over fresh attempts
(`envs i` is the environment of the `i`-th attempt — each attempt opens a
new browser and navigates from the target URL, sharing no loop state). -/
def login (credentials : Option Credentials) (envs : Nat → AttemptEnv) :
    (Bool × Option SessionRecord) × Nat :=
  match credentials with
  | none => ((false, none), 0)
  | some c =>
    if c.email = "" ∨ c.password = "" then ((false, none), 0)
    else
      retryAux (fun i => attemptRun (envs i)) (fun i => (envs i).collected)
        (MAX_RETRIES + 1) 0

end GlasirBrowser

namespace GlasirSession

/-- Python truthiness of a pair: `if t:` on a tuple tests emptiness, and a
2-tuple is always truthy.  `GlasirSession.login` (line 387 of
`glasir_main.py`) runs `if browser_result:` where `browser_result` is the
`(success, session_data)` pair returned by `GlasirBrowser.login`. -/
def pyTruthy2 {α β : Type} (_p : α × β) : Bool := true

/-- `GlasirSession.login` (lines 329-412 of `glasir_main.py`): validate a
cached session, try the fast path when valid, otherwise fall back to the
browser authenticator.  Returns the boolean result together with the
number of `save_session_data` calls (session-record writes); an exception
escaping `check_session_validity` propagates as `Except.error`. -/
def login (session_data : Option SessionRecord) (now : Int)
    (probe : ProbeOutcome) (httpOutcome : Except String GlasirHTTP.HttpResponse)
    (credentials : Option GlasirBrowser.Credentials)
    (benvs : Nat → GlasirBrowser.AttemptEnv) : Except String (Bool × Nat) :=
  let browserBranch : Except String (Bool × Nat) :=
    let br := (GlasirBrowser.login credentials benvs).1
    if pyTruthy2 br then .ok (true, 1) else .ok (false, 0)
  match session_data with
  | none => browserBranch
  | some r =>
    match GlasirHTTP.check_session_validity (some r) now probe with
    | .error e => .error e
    | .ok ((valid, _), _) =>
      if valid then
        match GlasirHTTP.login (some r) httpOutcome with
        | some _ => .ok (true, 1)
        | none => browserBranch
      else browserBranch

end GlasirSession

/-- An attempt environment in which every iteration shows an unrecognised
URL, reloads succeed, and the post-loop URL is not the final page: the
attempt exhausts its transition budget and fails. -/
def stuckEnv : GlasirBrowser.AttemptEnv where
  urls := fun _ => "x"
  reloadOk := fun _ => true
  postUrl := "x"
  exc := false
  collected := ⟨[], 0⟩

/-! ## Validator lemmas -/

/-- A run of cookies that all carry a name other than `ESTSAUTHPERSISTENT`
is skipped by the cookie scan. -/
theorem cookieScan_append (pre rest : List RawCookie) (now : Int)
    (h : ∀ d ∈ pre, ∃ n, d.nameKey = some n ∧ n ≠ "ESTSAUTHPERSISTENT") :
    GlasirHTTP.cookieScan (pre ++ rest) now = GlasirHTTP.cookieScan rest now := by
  induction pre with
  | nil => rfl
  | cons d pre ih =>
    obtain ⟨n, hn, hne⟩ := h d (List.mem_cons_self d pre)
    simp only [List.cons_append, GlasirHTTP.cookieScan, hn]
    rw [if_neg hne]
    exact ih (fun d' hd' => h d' (List.mem_cons_of_mem _ hd'))

/-- If every cookie entry carries both the `name` and the `expires` key,
the scan cannot raise. -/
theorem cookieScan_total (cs : List RawCookie) (now : Int)
    (h : ∀ c ∈ cs, c.nameKey.isSome ∧ c.expiresKey.isSome) :
    ∃ s, GlasirHTTP.cookieScan cs now = .ok s := by
  induction cs with
  | nil => exact ⟨.notFound, rfl⟩
  | cons c rest ih =>
    obtain ⟨hn, he⟩ := h c (List.mem_cons_self c rest)
    obtain ⟨n, hn'⟩ := Option.isSome_iff_exists.mp hn
    obtain ⟨e, he'⟩ := Option.isSome_iff_exists.mp he
    by_cases hcase : n = "ESTSAUTHPERSISTENT"
    · subst hcase
      by_cases hx : e ≠ -1 ∧ e < now
      · exact ⟨.expired, by simp [GlasirHTTP.cookieScan, hn', he', hx]⟩
      · exact ⟨.foundOk, by simp [GlasirHTTP.cookieScan, hn', he', hx]⟩
    · obtain ⟨s, hs⟩ := ih (fun c' hc' => h c' (List.mem_cons_of_mem _ hc'))
      exact ⟨s, by simp [GlasirHTTP.cookieScan, hn', hcase, hs]⟩

/-- C4: a session record that passes the auth-cookie presence and expiry
scan and whose `last_access_success` is positive and less than 3600 seconds
before the current time is declared valid with reason "Recent successful
access", with zero network probes performed. -/
theorem recent_access_short_circuit (r : SessionRecord) (now : Int)
    (probe : ProbeOutcome)
    (hscan : GlasirHTTP.cookieScan r.cookies now = .ok .foundOk)
    (hpos : r.last_access_success > 0)
    (hrecent : now - r.last_access_success < 3600) :
    GlasirHTTP.check_session_validity (some r) now probe
      = .ok ((true, "Recent successful access"), 0) := by
  simp only [GlasirHTTP.check_session_validity, hscan]
  rw [if_pos ⟨hpos, hrecent⟩]

/-- Witness for C4 at a concrete record and time. -/
theorem recent_access_short_circuit_witness :
    GlasirHTTP.check_session_validity
      (some ⟨[⟨some "ESTSAUTHPERSISTENT", some (-1)⟩], 100⟩) 200 (.resp 302 "/login")
      = .ok ((true, "Recent successful access"), 0) :=
  recent_access_short_circuit ⟨[⟨some "ESTSAUTHPERSISTENT", some (-1)⟩], 100⟩ 200
    (.resp 302 "/login") rfl (by decide) (by decide)

/-- C6: if the first `ESTSAUTHPERSISTENT` cookie of the record has a finite
expiry (`expires ≠ -1`) strictly before the current time, the validator
returns invalid with reason "Authentication cookie expired"; if its expiry
is the sentinel `-1`, the expiry scan accepts the cookie regardless of the
current time. -/
theorem auth_cookie_expiry_check (pre post : List RawCookie) (c : RawCookie)
    (la e now : Int) (probe : ProbeOutcome)
    (hpre : ∀ d ∈ pre, ∃ n, d.nameKey = some n ∧ n ≠ "ESTSAUTHPERSISTENT")
    (hname : c.nameKey = some "ESTSAUTHPERSISTENT")
    (hexp : c.expiresKey = some e) :
    (e ≠ -1 → e < now →
      GlasirHTTP.check_session_validity (some ⟨pre ++ c :: post, la⟩) now probe
        = .ok ((false, "Authentication cookie expired"), 0))
    ∧ (e = -1 → GlasirHTTP.cookieScan (pre ++ c :: post) now = .ok .foundOk) := by
  constructor
  · intro hne hlt
    have hscan : GlasirHTTP.cookieScan (pre ++ c :: post) now = .ok .expired := by
      rw [cookieScan_append pre (c :: post) now hpre]
      simp [GlasirHTTP.cookieScan, hname, hexp, hne, hlt]
    simp [GlasirHTTP.check_session_validity, hscan]
  · intro hsent
    rw [cookieScan_append pre (c :: post) now hpre]
    simp [GlasirHTTP.cookieScan, hname, hexp, hsent]

/-- Witness for C6: expired finite-expiry cookie behind an unrelated
cookie, and the sentinel case. -/
theorem auth_cookie_expiry_check_witness :
    GlasirHTTP.check_session_validity
      (some ⟨[⟨some "other", none⟩, ⟨some "ESTSAUTHPERSISTENT", some 10⟩], 0⟩) 20
      (.resp 200 "")
      = .ok ((false, "Authentication cookie expired"), 0)
    ∧ GlasirHTTP.cookieScan
        [⟨some "other", none⟩, ⟨some "ESTSAUTHPERSISTENT", some (-1)⟩] 20
        = .ok .foundOk := by
  constructor
  · exact (auth_cookie_expiry_check [⟨some "other", none⟩] []
      ⟨some "ESTSAUTHPERSISTENT", some 10⟩ 0 10 20 (.resp 200 "")
      (by intro d hd; simp at hd; subst hd; exact ⟨"other", rfl, by decide⟩)
      rfl rfl).1 (by decide) (by decide)
  · exact (auth_cookie_expiry_check [⟨some "other", none⟩] []
      ⟨some "ESTSAUTHPERSISTENT", some (-1)⟩ 0 (-1) 20 (.resp 200 "")
      (by intro d hd; simp at hd; subst hd; exact ⟨"other", rfl, by decide⟩)
      rfl rfl).2 rfl

/-- C7: a record none of whose cookies is named `ESTSAUTHPERSISTENT` is
invalid with reason "Authentication cookie not found"; in particular a
record with an empty cookie list is never valid. -/
theorem auth_cookie_not_found :
    (∀ (r : SessionRecord) (now : Int) (probe : ProbeOutcome),
      (∀ d ∈ r.cookies, ∃ n, d.nameKey = some n ∧ n ≠ "ESTSAUTHPERSISTENT") →
      GlasirHTTP.check_session_validity (some r) now probe
        = .ok ((false, "Authentication cookie not found"), 0))
    ∧ ∀ (la now : Int) (probe : ProbeOutcome),
      GlasirHTTP.check_session_validity (some ⟨[], la⟩) now probe
        = .ok ((false, "Authentication cookie not found"), 0) := by
  have main : ∀ (r : SessionRecord) (now : Int) (probe : ProbeOutcome),
      (∀ d ∈ r.cookies, ∃ n, d.nameKey = some n ∧ n ≠ "ESTSAUTHPERSISTENT") →
      GlasirHTTP.check_session_validity (some r) now probe
        = .ok ((false, "Authentication cookie not found"), 0) := by
    intro r now probe h
    have hscan : GlasirHTTP.cookieScan r.cookies now = .ok .notFound := by
      have := cookieScan_append r.cookies [] now h
      simpa using this
    simp [GlasirHTTP.check_session_validity, hscan]
  exact ⟨main, fun la now probe => main ⟨[], la⟩ now probe (by simp)⟩

/-- Witness for C7 at a concrete record without the auth cookie. -/
theorem auth_cookie_not_found_witness :
    GlasirHTTP.check_session_validity (some ⟨[⟨some "other", some 5⟩], 99⟩) 3
      (.resp 200 "")
      = .ok ((false, "Authentication cookie not found"), 0) :=
  auth_cookie_not_found.1 ⟨[⟨some "other", some 5⟩], 99⟩ 3 (.resp 200 "")
    (by intro d hd; simp at hd; subst hd; exact ⟨"other", rfl, by decide⟩)

/-- C10: the validator's `try` covers only the network probe.  With every
cookie entry carrying the `name` and `expires` keys the validator returns a
`(bool, reason)` pair for any probe outcome; a record whose first cookie
entry lacks the `name` key makes the cookie scan raise a `KeyError` past
the validator's boundary. -/
theorem validator_exception_guard :
    (∀ (r : SessionRecord) (now : Int) (probe : ProbeOutcome),
      (∀ c ∈ r.cookies, c.nameKey.isSome ∧ c.expiresKey.isSome) →
      ∃ p, GlasirHTTP.check_session_validity (some r) now probe = .ok p)
    ∧ GlasirHTTP.check_session_validity (some ⟨[⟨none, none⟩], 0⟩) 0 (.resp 200 "")
        = .error "KeyError: name" := by
  constructor
  · intro r now probe h
    obtain ⟨s, hs⟩ := cookieScan_total r.cookies now h
    cases s with
    | expired =>
      exact ⟨((false, "Authentication cookie expired"), 0),
        by simp [GlasirHTTP.check_session_validity, hs]⟩
    | notFound =>
      exact ⟨((false, "Authentication cookie not found"), 0),
        by simp [GlasirHTTP.check_session_validity, hs]⟩
    | foundOk =>
      by_cases hc : r.last_access_success > 0 ∧ now - r.last_access_success < 3600
      · exact ⟨((true, "Recent successful access"), 0),
          by simp [GlasirHTTP.check_session_validity, hs, hc]⟩
      · exact ⟨(GlasirHTTP.probeCheck probe, 1),
          by simp [GlasirHTTP.check_session_validity, hs, hc]⟩
  · rfl

/-- Witness for C10's guarded part at a concrete well-keyed record. -/
theorem validator_exception_guard_witness :
    ∃ p, GlasirHTTP.check_session_validity
      (some ⟨[⟨some "ESTSAUTHPERSISTENT", some (-1)⟩], 0⟩) 50 (.resp 500 "")
      = .ok p :=
  validator_exception_guard.1 ⟨[⟨some "ESTSAUTHPERSISTENT", some (-1)⟩], 0⟩ 50
    (.resp 500 "") (by intro c hc; simp at hc; subst hc; exact ⟨rfl, rfl⟩)

/-! ## Fast-path re-authenticator -/

/-- C5: `GlasirHTTP.login` succeeds exactly when session data exists, the
GET produced a response (rather than a transport exception), the status is
200, and the final resolved URL contains the expected final destination
(`self.final_url in response.url`).  Its codomain is `Option`, not
`Except`: the `try`/`except` catches every exception, so no error passes
its boundary. -/
theorem http_login_success_iff (sd : Option SessionRecord)
    (outcome : Except String GlasirHTTP.HttpResponse) :
    (GlasirHTTP.login sd outcome).isSome
      ↔ sd.isSome = true ∧ ∃ resp, outcome = .ok resp
          ∧ resp.status = 200 ∧ strContains resp.url finalUrl = true := by
  cases sd with
  | none => simp [GlasirHTTP.login]
  | some r =>
    cases outcome with
    | error e => simp [GlasirHTTP.login]
    | ok resp =>
      by_cases h : resp.status = 200 ∧ strContains resp.url finalUrl = true
      · simp [GlasirHTTP.login, h]
      · simp only [GlasirHTTP.login, if_neg h]
        simp only [Option.isSome_none, Bool.false_eq_true, false_iff]
        rintro ⟨-, resp2, heq, hr⟩
        cases heq
        exact h hr

/-- Witness for C5: a 200 response landing on the final URL succeeds. -/
theorem http_login_success_iff_witness :
    (GlasirHTTP.login (some ⟨[], 0⟩)
      (.ok ⟨200, "https://tg.glasir.fo/132n/", [], []⟩)).isSome = true :=
  (http_login_success_iff (some ⟨[], 0⟩)
      (.ok ⟨200, "https://tg.glasir.fo/132n/", [], []⟩)).mpr
    ⟨rfl, ⟨200, "https://tg.glasir.fo/132n/", [], []⟩, rfl, rfl, rfl⟩

/-! ## URL-to-state classification -/

/-- `List.find?` returns the entry at the first index whose test holds. -/
theorem find?_first_index {α : Type} (p : α → Bool) (d : α) :
    ∀ (l : List α) (i : Nat), i < l.length → p (l.getD i d) = true →
    (∀ j, j < i → p (l.getD j d) = false) →
    l.find? p = some (l.getD i d) := by
  intro l
  induction l with
  | nil => intro i hi; simp at hi
  | cons a t ih =>
    intro i hi h1 h2
    cases i with
    | zero =>
      simp only [List.getD_cons_zero] at h1
      simp [List.find?, h1]
    | succ i =>
      have ha : p a = false := by
        have := h2 0 (Nat.succ_pos i)
        simpa using this
      simp only [List.getD_cons_succ] at h1
      rw [List.find?_cons, ha]
      exact ih i (by simpa using hi) h1
        (fun j hj => by simpa using h2 (j + 1) (Nat.succ_lt_succ hj))

/-- C8: `determine_state` is a pure function of the URL string into the
state enumeration.  It returns `"UNKNOWN"` exactly when no pattern of the
fixed table matches, the first matching entry of the table (in its fixed
order) determines the state, and the result always lies in the
enumeration. -/
theorem determine_state_table :
    (∀ url, GlasirBrowser.determine_state url = "UNKNOWN"
        ↔ ∀ p ∈ GlasirBrowser.LOGIN_STATES, p.2 url = false)
    ∧ (∀ url i, i < GlasirBrowser.LOGIN_STATES.length →
        (GlasirBrowser.LOGIN_STATES.getD i GlasirBrowser.defaultEntry).2 url = true →
        (∀ j, j < i →
          (GlasirBrowser.LOGIN_STATES.getD j GlasirBrowser.defaultEntry).2 url = false) →
        GlasirBrowser.determine_state url
          = (GlasirBrowser.LOGIN_STATES.getD i GlasirBrowser.defaultEntry).1)
    ∧ (∀ url, GlasirBrowser.determine_state url
        ∈ ["INITIAL", "LOGIN_PAGE", "MICROSOFT_LOGIN", "ADFS_LOGIN",
           "RETURN_PAGE", "FINAL_PAGE", "UNKNOWN"]) := by
  refine ⟨?_, ?_, ?_⟩
  · intro url
    unfold GlasirBrowser.determine_state
    cases hfind : GlasirBrowser.LOGIN_STATES.find? (fun p => p.2 url) with
    | none =>
      simp only [true_iff]
      intro p hp
      have := List.find?_eq_none.mp hfind p hp
      simpa using this
    | some p =>
      have hmem := List.mem_of_find?_eq_some hfind
      have hp := List.find?_some hfind
      constructor
      · intro h1
        exfalso
        fin_cases hmem <;> simp_all [GlasirBrowser.LOGIN_STATES]
      · intro hall
        exfalso
        rw [hall p hmem] at hp
        exact Bool.false_ne_true hp
  · intro url i hi h1 h2
    unfold GlasirBrowser.determine_state
    rw [find?_first_index (fun p => p.2 url) GlasirBrowser.defaultEntry
      GlasirBrowser.LOGIN_STATES i hi h1 h2]
  · intro url
    unfold GlasirBrowser.determine_state
    cases hfind : GlasirBrowser.LOGIN_STATES.find? (fun p => p.2 url) with
    | none => simp
    | some p =>
      have hmem := List.mem_of_find?_eq_some hfind
      fin_cases hmem <;> simp [GlasirBrowser.LOGIN_STATES]

/-- Witness for C8: the first-match clause at index 5 (`FINAL_PAGE`) on a
concrete URL, and the `UNKNOWN` clause on a non-matching URL. -/
theorem determine_state_table_witness :
    GlasirBrowser.determine_state "https://tg.glasir.fo/132n/week" = "FINAL_PAGE"
    ∧ GlasirBrowser.determine_state "ftp://other" = "UNKNOWN" :=
  ⟨determine_state_table.2.1 "https://tg.glasir.fo/132n/week" 5 (by decide) rfl
      (by decide),
    (determine_state_table.1 "ftp://other").mpr (by decide)⟩

/-! ## Driving-loop lemmas -/

/-- A completed loop iteration implies the success condition was false at
that iteration. -/
theorem loopStep_next_not_success {u : String} {last l2 : Option String}
    {cnt c2 : Nat} {r b : Bool}
    (h : GlasirBrowser.loopStep u last cnt r = .next l2 c2 b) :
    GlasirBrowser.successCond u = false := by
  by_cases hs : GlasirBrowser.successCond u = true
  · rw [GlasirBrowser.loopStep, if_pos hs] at h
    exact absurd h (by simp)
  · exact Bool.not_eq_true _ ▸ Bool.of_not_eq_true hs

/-- A `halt .success` exit implies the success condition held. -/
theorem loopStep_halt_success {u : String} {last : Option String}
    {cnt : Nat} {r : Bool}
    (h : GlasirBrowser.loopStep u last cnt r = .halt .success) :
    GlasirBrowser.successCond u = true := by
  by_cases hs : GlasirBrowser.successCond u = true
  · exact hs
  · exfalso
    rw [GlasirBrowser.loopStep, if_neg hs] at h
    split_ifs at h
    all_goals simp_all

/-- Iteration-count bounds of the driving loop: the exit index is at most
`i + fuel`, and a reload-failure exit is strictly below it. -/
theorem loopAux_count (urls : Nat → String) (rOk : Nat → Bool) :
    ∀ (fuel i : Nat) (last : Option String) (cnt : Nat),
    (GlasirBrowser.loopAux urls rOk fuel i last cnt).2 ≤ i + fuel
    ∧ ((GlasirBrowser.loopAux urls rOk fuel i last cnt).1 = .reloadFail →
        (GlasirBrowser.loopAux urls rOk fuel i last cnt).2 < i + fuel) := by
  intro fuel
  induction fuel with
  | zero =>
    intro i last cnt
    refine ⟨by simp [GlasirBrowser.loopAux], ?_⟩
    intro h
    simp [GlasirBrowser.loopAux] at h
  | succ fuel ih =>
    intro i last cnt
    cases hstep : GlasirBrowser.loopStep (urls i) last cnt (rOk i) with
    | halt e =>
      simp only [GlasirBrowser.loopAux, hstep]
      exact ⟨by omega, fun _ => by omega⟩
    | next l2 c2 b =>
      simp only [GlasirBrowser.loopAux, hstep]
      obtain ⟨hle, hrf⟩ := ih (i + 1) l2 c2
      exact ⟨by omega, fun h => by have := hrf h; omega⟩

/-- A successful exit of the driving loop happens at the first iteration
whose success condition holds: it holds at the exit index and at no
earlier index at or after the starting index. -/
theorem loopAux_success_char (urls : Nat → String) (rOk : Nat → Bool) :
    ∀ (fuel i : Nat) (last : Option String) (cnt : Nat),
    (GlasirBrowser.loopAux urls rOk fuel i last cnt).1 = .success →
    GlasirBrowser.successCond
        (urls (GlasirBrowser.loopAux urls rOk fuel i last cnt).2) = true
    ∧ ∀ j, i ≤ j → j < (GlasirBrowser.loopAux urls rOk fuel i last cnt).2 →
        GlasirBrowser.successCond (urls j) = false := by
  intro fuel
  induction fuel with
  | zero =>
    intro i last cnt h
    simp [GlasirBrowser.loopAux] at h
  | succ fuel ih =>
    intro i last cnt
    cases hstep : GlasirBrowser.loopStep (urls i) last cnt (rOk i) with
    | halt e =>
      intro h
      simp only [GlasirBrowser.loopAux, hstep] at h ⊢
      subst h
      refine ⟨loopStep_halt_success hstep, ?_⟩
      intro j h1 h2
      omega
    | next l2 c2 b =>
      intro h
      simp only [GlasirBrowser.loopAux, hstep] at h ⊢
      obtain ⟨hsucc, hbefore⟩ := ih (i + 1) l2 c2 h
      refine ⟨hsucc, ?_⟩
      intro j h1 h2
      rcases Nat.eq_or_lt_of_le h1 with heq | hlt
      · exact heq ▸ loopStep_next_not_success hstep
      · exact hbefore j hlt h2

/-- C3: stuck-state handling of the driving loop.  When the computed state
repeats and the stuck counter reaches the threshold of 5, exactly one
page-reload recovery runs and the counter resets to 0 (failed reload:
the iteration breaks out with `reloadFail`); below the threshold no reload
runs; any state change resets the counter to 0 with no reload; a
reload-failure exit of the whole loop occurs strictly before the
30-transition budget; and an attempt whose post-loop URL misses the
success markers fails. -/
theorem stuck_state_recovery :
    (∀ u last cnt rOk, some (GlasirBrowser.determine_state u) = last →
      cnt + 1 = GlasirBrowser.MAX_SAME_STATE →
      GlasirBrowser.successCond u = false →
      GlasirBrowser.loopStep u last cnt rOk
        = if rOk then .next (some (GlasirBrowser.determine_state u)) 0 true
          else .halt .reloadFail)
    ∧ (∀ u last cnt rOk, some (GlasirBrowser.determine_state u) = last →
      cnt + 1 < GlasirBrowser.MAX_SAME_STATE →
      GlasirBrowser.successCond u = false →
      GlasirBrowser.loopStep u last cnt rOk
        = .next (some (GlasirBrowser.determine_state u)) (cnt + 1) false)
    ∧ (∀ u last cnt rOk, some (GlasirBrowser.determine_state u) ≠ last →
      GlasirBrowser.successCond u = false →
      GlasirBrowser.loopStep u last cnt rOk
        = .next (some (GlasirBrowser.determine_state u)) 0 false)
    ∧ (∀ urls rOk, (GlasirBrowser.loginLoop urls rOk).1 = .reloadFail →
      (GlasirBrowser.loginLoop urls rOk).2 < GlasirBrowser.MAX_STATE_TRANSITIONS)
    ∧ (∀ e : GlasirBrowser.AttemptEnv,
      strContains e.postUrl finalUrl = false →
      strContains e.postUrl "/132n/" = false →
      GlasirBrowser.attemptRun e = false) := by
  refine ⟨?_, ?_, ?_, ?_, ?_⟩
  · intro u last cnt rOk hsame hthr hfail
    rw [GlasirBrowser.loopStep, if_neg (by simp [hfail]), if_pos hsame,
      if_pos (by omega)]
  · intro u last cnt rOk hsame hthr hfail
    rw [GlasirBrowser.loopStep, if_neg (by simp [hfail]), if_pos hsame,
      if_neg (by omega)]
  · intro u last cnt rOk hdiff hfail
    rw [GlasirBrowser.loopStep, if_neg (by simp [hfail]), if_neg hdiff]
  · intro urls rOk h
    have := (loopAux_count urls rOk GlasirBrowser.MAX_STATE_TRANSITIONS 0 none 0).2 h
    simpa [GlasirBrowser.loginLoop] using this
  · intro e h1 h2
    simp [GlasirBrowser.attemptRun, h1, h2]

/-- Witness for C3: threshold reload with failed and successful reloads,
counter reset on a state change, and a concrete stuck run whose failed
reload aborts after 5 of the 30 budgeted transitions. -/
theorem stuck_state_recovery_witness :
    GlasirBrowser.loopStep "x" (some "UNKNOWN") 4 false = .halt .reloadFail
    ∧ GlasirBrowser.loopStep "x" (some "UNKNOWN") 4 true
        = .next (some "UNKNOWN") 0 true
    ∧ GlasirBrowser.loopStep "x" none 0 true = .next (some "UNKNOWN") 0 false
    ∧ (GlasirBrowser.loginLoop (fun _ => "x") (fun _ => false)).2 < 30
    ∧ GlasirBrowser.attemptRun stuckEnv = false :=
  ⟨stuck_state_recovery.1 "x" (some "UNKNOWN") 4 false rfl rfl rfl,
    stuck_state_recovery.1 "x" (some "UNKNOWN") 4 true rfl rfl rfl,
    stuck_state_recovery.2.2.1 "x" none 0 true (by simp) rfl,
    stuck_state_recovery.2.2.2.1 (fun _ => "x") (fun _ => false) rfl,
    stuck_state_recovery.2.2.2.2 stuckEnv rfl rfl⟩

/-- C9: the driving loop runs at most 30 iterations (and, being a total
function, always terminates); a successful exit happens exactly at the
first iteration at which the success condition — computed state equals
`FINAL_PAGE`, or the URL contains the final-destination marker — holds. -/
theorem driving_loop_budget :
    (∀ urls rOk, (GlasirBrowser.loginLoop urls rOk).2
        ≤ GlasirBrowser.MAX_STATE_TRANSITIONS)
    ∧ (∀ urls rOk, (GlasirBrowser.loginLoop urls rOk).1 = .success →
      GlasirBrowser.successCond (urls (GlasirBrowser.loginLoop urls rOk).2) = true
      ∧ ∀ j, j < (GlasirBrowser.loginLoop urls rOk).2 →
          GlasirBrowser.successCond (urls j) = false) := by
  constructor
  · intro urls rOk
    have := (loopAux_count urls rOk GlasirBrowser.MAX_STATE_TRANSITIONS 0 none 0).1
    simpa [GlasirBrowser.loginLoop] using this
  · intro urls rOk h
    obtain ⟨hsucc, hbefore⟩ :=
      loopAux_success_char urls rOk GlasirBrowser.MAX_STATE_TRANSITIONS 0 none 0 h
    exact ⟨hsucc, fun j hj => hbefore j (Nat.zero_le j) hj⟩

/-- Witness for C9: a budget bound at a concrete stuck run, and the
success characterisation at a run that reaches the final page at once. -/
theorem driving_loop_budget_witness :
    (GlasirBrowser.loginLoop (fun _ => "x") (fun _ => true)).2 ≤ 30
    ∧ GlasirBrowser.successCond
        ((fun _ => "https://tg.glasir.fo/132n/")
          (GlasirBrowser.loginLoop (fun _ => "https://tg.glasir.fo/132n/")
            (fun _ => true)).2) = true :=
  ⟨driving_loop_budget.1 (fun _ => "x") (fun _ => true),
    (driving_loop_budget.2 (fun _ => "https://tg.glasir.fo/132n/")
      (fun _ => true) rfl).1⟩

/-! ## Retry loop and orchestrator -/

/-- The retry loop performs at most `rc + fuel` attempts in total. -/
theorem retryAux_le (att : Nat → Bool) (col : Nat → SessionRecord) :
    ∀ (fuel rc : Nat), (GlasirBrowser.retryAux att col fuel rc).2 ≤ rc + fuel := by
  intro fuel
  induction fuel with
  | zero => intro rc; simp [GlasirBrowser.retryAux]
  | succ fuel ih =>
    intro rc
    rw [GlasirBrowser.retryAux]
    by_cases h1 : att rc = true
    · simp only [h1, if_true]
      omega
    · rw [if_neg (by simp [h1])]
      by_cases h2 : rc + 1 ≤ GlasirBrowser.MAX_RETRIES
      · rw [if_pos h2]
        have := ih (rc + 1)
        omega
      · rw [if_neg h2]
        omega

/-- When every attempt up to `MAX_RETRIES` fails, the retry loop returns
`(False, None)` after exactly `MAX_RETRIES + 1 = 4` attempts. -/
theorem retryAux_all_fail (att : Nat → Bool) (col : Nat → SessionRecord) :
    ∀ (fuel rc : Nat), rc + fuel = GlasirBrowser.MAX_RETRIES + 1 →
    (∀ i, i ≤ GlasirBrowser.MAX_RETRIES → att i = false) →
    GlasirBrowser.retryAux att col fuel rc
      = ((false, none), GlasirBrowser.MAX_RETRIES + 1) := by
  intro fuel
  induction fuel with
  | zero =>
    intro rc heq hall
    have h4 : rc = GlasirBrowser.MAX_RETRIES + 1 := by omega
    rw [GlasirBrowser.retryAux, h4]
  | succ fuel ih =>
    intro rc heq hall
    have hrc : rc ≤ GlasirBrowser.MAX_RETRIES := by
      simp only [GlasirBrowser.MAX_RETRIES] at heq ⊢
      omega
    rw [GlasirBrowser.retryAux, hall rc hrc]
    rw [if_neg (by simp)]
    by_cases h2 : rc + 1 ≤ GlasirBrowser.MAX_RETRIES
    · rw [if_pos h2]
      exact ih (rc + 1) (by omega) hall
    · rw [if_neg h2]
      have : rc + 1 = GlasirBrowser.MAX_RETRIES + 1 := by
        simp only [GlasirBrowser.MAX_RETRIES] at *
        omega
      rw [this]

/-- C2 counterexample: with well-formed credentials and every attempt
failing, `GlasirBrowser.login` performs 4 full login attempts — one
initial attempt plus `MAX_RETRIES = 3` retries (the loop condition is
`retry_count <= max_retries` with `retry_count` starting at 0) — not at
most 3 as claimed. -/
theorem browser_retry_counterexample :
    GlasirBrowser.login (some ⟨"a", "b"⟩) (fun _ => stuckEnv) = ((false, none), 4)
    ∧ ¬ ((GlasirBrowser.login (some ⟨"a", "b"⟩) (fun _ => stuckEnv)).2 ≤ 3) := by
  refine ⟨rfl, ?_⟩
  rw [show GlasirBrowser.login (some ⟨"a", "b"⟩) (fun _ => stuckEnv)
    = ((false, none), 4) from rfl]
  decide

/-- C2 (amended): the interactive authenticator's retry loop performs at
most `MAX_RETRIES + 1 = 4` full login attempts (each attempt `i` running
against its own fresh environment `envs i`), and when credentials are
present and non-empty and every attempt fails it returns `(False, None)`
after exactly 4 attempts. -/
theorem browser_retry_bound :
    (∀ creds envs, (GlasirBrowser.login creds envs).2
        ≤ GlasirBrowser.MAX_RETRIES + 1)
    ∧ (∀ (c : GlasirBrowser.Credentials) envs,
      ¬ (c.email = "" ∨ c.password = "") →
      (∀ i, i ≤ GlasirBrowser.MAX_RETRIES →
        GlasirBrowser.attemptRun (envs i) = false) →
      GlasirBrowser.login (some c) envs
        = ((false, none), GlasirBrowser.MAX_RETRIES + 1)) := by
  constructor
  · intro creds envs
    cases creds with
    | none => simp [GlasirBrowser.login]
    | some c =>
      rw [GlasirBrowser.login]
      by_cases hc : c.email = "" ∨ c.password = ""
      · rw [if_pos hc]
        simp
      · rw [if_neg hc]
        have := retryAux_le (fun i => GlasirBrowser.attemptRun (envs i))
          (fun i => (envs i).collected) (GlasirBrowser.MAX_RETRIES + 1) 0
        omega
  · intro c envs hc hall
    rw [GlasirBrowser.login, if_neg hc]
    exact retryAux_all_fail _ _ (GlasirBrowser.MAX_RETRIES + 1) 0 (by omega) hall

/-- Witness for C2's amended theorem at concrete inputs. -/
theorem browser_retry_bound_witness :
    (GlasirBrowser.login (some ⟨"a", "b"⟩) (fun _ => stuckEnv)).2 ≤ 4
    ∧ GlasirBrowser.login (some ⟨"a", "b"⟩) (fun _ => stuckEnv)
        = ((false, none), 4) :=
  ⟨browser_retry_bound.1 (some ⟨"a", "b"⟩) (fun _ => stuckEnv),
    browser_retry_bound.2 ⟨"a", "b"⟩ (fun _ => stuckEnv) (by simp)
      (fun i _ => rfl)⟩

/-- C1: the orchestrator mishandles a failed interactive login.  At a
concrete input with no cached session and an interactive authenticator
whose every attempt fails — so `GlasirBrowser.login` returns
`(False, None)` — `GlasirSession.login` nevertheless returns success and
performs one session-record write, because `if browser_result:` tests the
truthiness of the `(success, session_data)` 2-tuple, which is always
truthy.  The claim (and `GlasirBrowser.login`s documented contract)
requires failure with zero writes here. -/
theorem orchestrator_failure_write_bug :
    (GlasirBrowser.login (some ⟨"a", "b"⟩) (fun _ => stuckEnv)).1 = (false, none)
    ∧ GlasirSession.login none 0 (.resp 200 "") (.error "down") (some ⟨"a", "b"⟩)
        (fun _ => stuckEnv) = .ok (true, 1) :=
  ⟨rfl, rfl⟩
